/-
Verification of the PrivateRepoLoader custom integration.

Shallow embedding of the pure logic of the integration:
  - `custom_components/private_repo_loader/coordinator.py` (calculate_poll_interval)
  - `custom_components/private_repo_loader/loader.py` (_auth_url, _parse_git_error,
    sync_repo, sync_repo_detailed)
  - `custom_components/private_repo_loader/github_api.py` (parse_github_url)

Python strings are modelled as `List Char`; the Python string methods the code
uses (strip, rstrip, startswith, endswith, split, replace, lower, `in`) are
given Python-faithful executable definitions below.  Filesystem and git side
effects of `sync_repo_detailed` are modelled as an oracle record `GitEnv`
holding the observable outcome of each effectful call the source makes.
-/
import Mathlib

/-! ### Python string primitives -/

/-- Python `str.startswith`: `leadsWith pat s` is true when `pat` is a leading
segment of `s`. -/
def leadsWith : List Char → List Char → Bool
  | [], _ => true
  | _ :: _, [] => false
  | p :: ps, c :: cs => p == c && leadsWith ps cs

/-- Python `pat in s` (substring containment). -/
def containsSub (pat : List Char) : List Char → Bool
  | [] => leadsWith pat []
  | c :: rest => leadsWith pat (c :: rest) || containsSub pat rest

/-- Python `str.endswith`. -/
def endsWithL (suf s : List Char) : Bool :=
  leadsWith suf.reverse s.reverse

/-- The whitespace characters stripped by Python `str.strip()` (ASCII part). -/
def isPySpace (c : Char) : Bool :=
  c == ' ' || c == '\t' || c == '\n' || c == '\r' || c == '\x0b' || c == '\x0c'

/-- Python `str.strip()` with no argument. -/
def pyStrip (s : List Char) : List Char :=
  ((s.dropWhile isPySpace).reverse.dropWhile isPySpace).reverse

/-- Python `str.rstrip("/")`. -/
def pyRstripSlash (s : List Char) : List Char :=
  (s.reverse.dropWhile (· == '/')).reverse

/-- Python `s[:-n]` for `n ≤ len(s)`. -/
def dropTail (n : Nat) (l : List Char) : List Char :=
  l.take (l.length - n)

/-- Python `str.split("/")` (with an explicit separator, so adjacent separators
produce empty segments and `"".split("/") == [""]`). -/
def pySplitSlash : List Char → List (List Char)
  | [] => [[]]
  | c :: rest =>
    if c == '/' then [] :: pySplitSlash rest
    else
      match pySplitSlash rest with
      | [] => [[c]]
      | seg :: segs => (c :: seg) :: segs

/-- ASCII lowering of a single character, as Python `str.lower()` acts on the
ASCII characters appearing in the matched patterns. -/
def asciiLower (c : Char) : Char :=
  match c with
  | 'A' => 'a' | 'B' => 'b' | 'C' => 'c' | 'D' => 'd' | 'E' => 'e' | 'F' => 'f'
  | 'G' => 'g' | 'H' => 'h' | 'I' => 'i' | 'J' => 'j' | 'K' => 'k' | 'L' => 'l'
  | 'M' => 'm' | 'N' => 'n' | 'O' => 'o' | 'P' => 'p' | 'Q' => 'q' | 'R' => 'r'
  | 'S' => 's' | 'T' => 't' | 'U' => 'u' | 'V' => 'v' | 'W' => 'w' | 'X' => 'x'
  | 'Y' => 'y' | 'Z' => 'z'
  | other => other

/-- Python `str.lower()`. -/
def pyLower (s : List Char) : List Char := s.map asciiLower

/-- One fuel-measured step chain of Python `str.replace(pat, rep)`: scans left
to right, replacing non-overlapping occurrences.  The fuel only needs to cover
the length of the scanned string when `pat` is non-empty. -/
def replaceFuel (pat rep : List Char) : Nat → List Char → List Char
  | 0, s => s
  | _ + 1, [] => []
  | fuel + 1, c :: rest =>
    if leadsWith pat (c :: rest) then
      rep ++ replaceFuel pat rep fuel ((c :: rest).drop pat.length)
    else
      c :: replaceFuel pat rep fuel rest

/-- Python `str.replace(pat, rep)`.  Every use in the embedded code has a
non-empty `pat`, so the `[]` case is never exercised. -/
def pyReplace (pat rep s : List Char) : List Char :=
  match pat with
  | [] => s
  | _ :: _ => replaceFuel pat rep s.length s

/-! ### const.py -/

def DEFAULT_BRANCH : List Char := "main".data

def DEFAULT_POLL_INTERVAL : Int := 1
def POLL_INTERVAL_1_DAY : Int := 5
def POLL_INTERVAL_1_WEEK : Int := 30
def POLL_INTERVAL_1_MONTH : Int := 60

def THRESHOLD_1_DAY : Int := 24 * 60 * 60
def THRESHOLD_1_WEEK : Int := 7 * 24 * 60 * 60
def THRESHOLD_1_MONTH : Int := 30 * 24 * 60 * 60

/-! ### coordinator.py: calculate_poll_interval

`datetime.now()` is passed explicitly as `now`; timestamps are modelled as
integer seconds, so `(now - last_changed).total_seconds()` is `now - lc`. -/

def calculate_poll_interval (now : Int) (last_changed : Option Int)
    (base_interval : Int) : Int :=
  match last_changed with
  | none => base_interval
  | some lc =>
    let time_since_change := now - lc
    if time_since_change ≥ THRESHOLD_1_MONTH then POLL_INTERVAL_1_MONTH
    else if time_since_change ≥ THRESHOLD_1_WEEK then POLL_INTERVAL_1_WEEK
    else if time_since_change ≥ THRESHOLD_1_DAY then POLL_INTERVAL_1_DAY
    else base_interval

/-! ### loader.py: _parse_git_error -/

/-- `loader._parse_git_error`: classify a git error string into
`(error_type, user_message)` by substring matching, in source order. -/
def parse_git_error (error_str : List Char) : List Char × List Char :=
  let error_lower := pyLower error_str
  if containsSub "authentication failed".data error_lower
      || containsSub "invalid credentials".data error_lower then
    ("auth".data,
     "Authentication failed. Please check your Personal Access Token (PAT).".data)
  else if containsSub "401".data error_str
      || containsSub "unauthorized".data error_lower then
    ("auth".data, "Unauthorized. Your PAT may be invalid or expired.".data)
  else if containsSub "403".data error_str
      || containsSub "forbidden".data error_lower then
    ("permission".data,
     "Permission denied. Ensure your PAT has \x27repo\x27 scope for private repos.".data)
  else if containsSub "404".data error_str
      || containsSub "not found".data error_lower then
    ("not_found".data,
     "Repository not found. Check the URL or ensure your PAT has access.".data)
  else if containsSub "could not read from remote".data error_lower
      || containsSub "remote hung up".data error_lower
      || containsSub "connection refused".data error_lower then
    ("network".data,
     "Network error connecting to GitHub. Please check your connection.".data)
  else if containsSub "does not appear to be a git repository".data error_lower then
    ("not_found".data,
     "Repository not found or no access. Verify URL and PAT permissions.".data)
  else
    ("unknown".data, error_str)

/-- The category ladder exactly as the claim wording describes it: totally
case-insensitive substring matching with first-match precedence.  (The source
matches the numeric patterns "401"/"403"/"404" against the original-case
string; on digit characters the two coincide.) -/
def gitErrorCategorySpec (error_str : List Char) : List Char :=
  let low := pyLower error_str
  if containsSub "authentication failed".data low
      || containsSub "invalid credentials".data low then "auth".data
  else if containsSub "401".data low
      || containsSub "unauthorized".data low then "auth".data
  else if containsSub "403".data low
      || containsSub "forbidden".data low then "permission".data
  else if containsSub "404".data low
      || containsSub "not found".data low then "not_found".data
  else if containsSub "could not read from remote".data low
      || containsSub "remote hung up".data low
      || containsSub "connection refused".data low then "network".data
  else if containsSub "does not appear to be a git repository".data low then
    "not_found".data
  else "unknown".data

/-! ### loader.py: _auth_url -/

/-- Python truthiness of an optional string (`None` and `""` are falsy). -/
def pyTruthyOpt (t : Option (List Char)) : Bool :=
  match t with
  | none => false
  | some s => s != []

/-- `loader._auth_url`; raising `ValueError` is modelled as `Except.error`
carrying the exception message. -/
def auth_url (url : List Char) (token : Option (List Char)) :
    Except (List Char) (List Char) :=
  if leadsWith "https://".data url = false then
    Except.error "Only https clone URLs are supported".data
  else if pyTruthyOpt token then
    Except.ok (pyReplace "https://".data
      ("https://".data ++ token.getD [] ++ ['@']) url)
  else
    Except.ok url

/-! ### github_api.py: parse_github_url -/

/-- The SSH-URL branch of `parse_github_url` (lines 299-305) followed by the
final `return None`. -/
def githubSshBranch (url : List Char) : Option (List Char × List Char) :=
  if leadsWith "git@github.com:".data url then
    let path := url.drop ("git@github.com:".data).length
    let path := if endsWithL ".git".data path then dropTail 4 path else path
    match pySplitSlash path with
    | a :: b :: _ => some (a, b)
    | _ => none
  else
    none

/-- The body of `parse_github_url` after the empty check and `strip()`. -/
def parseStrippedUrl (url : List Char) : Option (List Char × List Char) :=
  if leadsWith "https://github.com/".data url then
    let path := url.drop ("https://github.com/".data).length
    let path := pyRstripSlash path
    let path := if endsWithL ".git".data path then dropTail 4 path else path
    match pySplitSlash path with
    | a :: b :: _ => some (a, b)
    | _ => githubSshBranch url
  else
    githubSshBranch url

/-- `github_api.parse_github_url`. -/
def parse_github_url (url0 : List Char) : Option (List Char × List Char) :=
  if url0 = [] then
    none
  else
    parseStrippedUrl (pyStrip url0)

/-! ### loader.py: sync_repo_detailed -/

/-- `loader.SyncResult`. -/
structure SyncResult where
  status : List Char
  has_changes : Bool := false
  commit_sha : Option (List Char) := none
  error : Option (List Char) := none
  error_type : Option (List Char) := none
deriving DecidableEq

/-- The configuration fields `sync_repo_detailed` reads out of `cfg` with
`cfg.get(key, default)` already resolved to their values. -/
structure SyncConfig where
  repository : List Char
  slug : List Char
  branch : List Char
  token : List Char
deriving DecidableEq

/-- Where `_find_integration_in_repo` located the integration: at the repo
root (flat layout) or in a `custom_components/<name>` subfolder. -/
inductive IntegrationLoc where
  | flat
  | sub (name : List Char)
deriving DecidableEq

/-- Oracle for the filesystem and git effects of one `sync_repo_detailed`
run: each field records the observable outcome of the corresponding call in
the source.  `updateError` is the message of a `GitCommandError` raised
anywhere in the set_url/fetch/checkout/pull sequence (none when it succeeds
with `headAfterPull` as the new HEAD); `cloneError`/`cloneHead` play the same
role for `git.Repo.clone_from`; `fileSyncError` for `_sync_integration_files`;
`integration` is the result of `_find_integration_in_repo`. -/
structure GitEnv where
  stagingExists : Bool
  stagingIsValidRepo : Bool
  headBefore : List Char
  updateError : Option (List Char)
  headAfterPull : List Char
  cloneError : Option (List Char)
  cloneHead : List Char
  integration : Option IntegrationLoc
  fileSyncError : Option (List Char)
deriving DecidableEq

/-- The slug fallback extraction of `sync_repo_detailed` lines 276-282:
`url.rstrip("/").split("/")[-1].replace(".git", "").strip()`. -/
def slug_from_url (url : List Char) : List Char :=
  pyStrip (pyReplace ".git".data []
    ((pySplitSlash (pyRstripSlash url)).getLastD []))

/-- The slug actually used: the configured one, else extracted from the URL. -/
def effectiveSlug (cfg : SyncConfig) : List Char :=
  if cfg.slug != [] then cfg.slug else slug_from_url cfg.repository

/-- The clone/fetch/checkout/pull phase of `sync_repo_detailed` (lines
310-343): yields either the raised git error message, or
`(is_new_clone, commit_before, commit_after)`. -/
def gitPhase (env : GitEnv) : Except (List Char) (Bool × Option (List Char) × List Char) :=
  if env.stagingExists then
    if env.stagingIsValidRepo then
      match env.updateError with
      | some e => Except.error e
      | none => Except.ok (false, some env.headBefore, env.headAfterPull)
    else
      match env.cloneError with
      | some e => Except.error e
      | none => Except.ok (true, none, env.cloneHead)
  else
    match env.cloneError with
    | some e => Except.error e
    | none => Except.ok (true, none, env.cloneHead)

/-- The body of `sync_repo_detailed` from line 310 on (everything after
`_auth_url` succeeded): run the git phase, locate the integration, detect
changes, and build the result. -/
def syncGitPart (env : GitEnv) : SyncResult :=
  match gitPhase env with
  | Except.error e =>
    let parsed := parse_git_error e
    { status := "skipped".data
      error := some parsed.2
      error_type := some parsed.1 }
  | Except.ok (is_new_clone, commit_before, commit_after) =>
    match env.integration with
    | none =>
      { status := "skipped".data
        error := some ("Repository does not contain a valid custom component. Expected custom_components/<integration>/ structure.".data)
        error_type := some "structure".data }
    | some _ =>
      let has_git_changes :=
        match commit_before with
        | none => true
        | some cb => if cb != [] then cb != commit_after else true
      if has_git_changes then
        match env.fileSyncError with
        | some e =>
          let parsed := parse_git_error e
          { status := "skipped".data
            error := some parsed.2
            error_type := some parsed.1 }
        | none =>
          if is_new_clone then
            { status := "cloned".data
              has_changes := true
              commit_sha := some commit_after }
          else
            { status := "updated".data
              has_changes := true
              commit_sha := some commit_after }
      else
        { status := "unchanged".data
          has_changes := false
          commit_sha := some commit_after }

/-- `loader.sync_repo_detailed`.  The `root` path only influences where files
are written, never the returned `SyncResult`, so it does not appear. -/
def sync_repo_detailed (cfg : SyncConfig) (env : GitEnv) : SyncResult :=
  let url := cfg.repository
  if url = [] then
    { status := "skipped".data
      error := some "Repository URL is empty".data
      error_type := some "config".data }
  else if !leadsWith "https://".data url && !leadsWith "file://".data url then
    { status := "skipped".data
      error := some "Repository URL must start with https://".data
      error_type := some "config".data }
  else if effectiveSlug cfg = [] then
    { status := "skipped".data
      error := some "Could not determine slug from URL".data
      error_type := some "config".data }
  else
    match auth_url url (some cfg.token) with
    | Except.error msg =>
      { status := "skipped".data
        error := some msg
        error_type := some "config".data }
    | Except.ok _ =>
      syncGitPart env

/-- `loader.sync_repo`: the backwards-compatible string wrapper. -/
def sync_repo (cfg : SyncConfig) (env : GitEnv) : List Char :=
  (sync_repo_detailed cfg env).status

/-! ### Helper lemmas -/

lemma beq_asciiLower_digit (d x : Char)
    (hd : d = '4' ∨ d = '0' ∨ d = '1' ∨ d = '3') :
    (d == asciiLower x) = (d == x) := by
  unfold asciiLower
  split <;> first
  | rfl
  | (subst_vars; rcases hd with h | h | h | h <;> subst h <;> decide)

lemma leadsWith_pyLower (pat : List Char)
    (hp : ∀ p ∈ pat, ∀ x : Char, (p == asciiLower x) = (p == x)) :
    ∀ s : List Char, leadsWith pat (pyLower s) = leadsWith pat s := by
  induction pat with
  | nil => intro s; cases s <;> rfl
  | cons p ps ih =>
    intro s
    cases s with
    | nil => rfl
    | cons c cs =>
      simp only [pyLower, List.map_cons, leadsWith]
      rw [hp p (List.mem_cons_self p ps) c]
      rw [show List.map asciiLower cs = pyLower cs from rfl]
      rw [ih (fun q hq x => hp q (List.mem_cons_of_mem p hq) x) cs]

lemma containsSub_pyLower (pat : List Char)
    (hp : ∀ p ∈ pat, ∀ x : Char, (p == asciiLower x) = (p == x)) :
    ∀ s : List Char, containsSub pat (pyLower s) = containsSub pat s := by
  intro s
  induction s with
  | nil => rfl
  | cons c cs ih =>
    simp only [pyLower, List.map_cons, containsSub]
    rw [show (asciiLower c :: List.map asciiLower cs) = pyLower (c :: cs) from rfl]
    rw [leadsWith_pyLower pat hp (c :: cs)]
    rw [show List.map asciiLower cs = pyLower cs from rfl, ih]

lemma digit_pat_members (pat : List Char)
    (h : ∀ p ∈ pat, p = '4' ∨ p = '0' ∨ p = '1' ∨ p = '3') :
    ∀ p ∈ pat, ∀ x : Char, (p == asciiLower x) = (p == x) :=
  fun p hp x => beq_asciiLower_digit p x (h p hp)

lemma containsSub_401_pyLower (s : List Char) :
    containsSub "401".data (pyLower s) = containsSub "401".data s :=
  containsSub_pyLower _ (digit_pat_members _ (by decide)) s

lemma containsSub_403_pyLower (s : List Char) :
    containsSub "403".data (pyLower s) = containsSub "403".data s :=
  containsSub_pyLower _ (digit_pat_members _ (by decide)) s

lemma containsSub_404_pyLower (s : List Char) :
    containsSub "404".data (pyLower s) = containsSub "404".data s :=
  containsSub_pyLower _ (digit_pat_members _ (by decide)) s

lemma parse_git_error_fst_mem (s : List Char) :
    (parse_git_error s).1 = "auth".data ∨ (parse_git_error s).1 = "permission".data
    ∨ (parse_git_error s).1 = "not_found".data ∨ (parse_git_error s).1 = "network".data
    ∨ (parse_git_error s).1 = "unknown".data := by
  simp only [parse_git_error]
  split_ifs <;> simp

/-! ### Claim theorems -/

/-- C4: `_parse_git_error` is total, always returns one of the five
categories auth, permission, not_found, network, unknown, chosen with exactly
the claim's case-insensitive first-match precedence ladder (formalised by
`gitErrorCategorySpec`), and in the unknown case the message is the original
error string. -/
theorem C4_parse_git_error_classification (s : List Char) :
    (parse_git_error s).1 = gitErrorCategorySpec s
    ∧ ((parse_git_error s).1 = "auth".data ∨ (parse_git_error s).1 = "permission".data
       ∨ (parse_git_error s).1 = "not_found".data ∨ (parse_git_error s).1 = "network".data
       ∨ (parse_git_error s).1 = "unknown".data)
    ∧ ((parse_git_error s).1 = "unknown".data → (parse_git_error s).2 = s) := by
  refine ⟨?_, parse_git_error_fst_mem s, ?_⟩
  · simp only [parse_git_error, gitErrorCategorySpec]
    rw [containsSub_401_pyLower, containsSub_403_pyLower, containsSub_404_pyLower]
    split_ifs <;> rfl
  · simp only [parse_git_error]
    split_ifs <;> simp

/-- Witness for C4: a message containing both "403" and "not found" is
classified "permission" (the earlier rule wins). -/
theorem C4_parse_git_error_classification_witness :
    (parse_git_error "403 not found".data).1 = "permission".data := by
  have h := (C4_parse_git_error_classification "403 not found".data).1
  rw [h]; decide

/-- C2: `calculate_poll_interval` returns the base interval when
`last_changed` is `None` or less than one day has elapsed, 5 minutes from one
day up to one week, 30 minutes from one week up to 30 days, and 60 minutes
from 30 days on; the result is always one of `base`, 5, 30, 60, and each
threshold boundary itself maps to the longer interval. -/
theorem C2_calculate_poll_interval_cases (now lc base : Int) :
    calculate_poll_interval now none base = base
    ∧ (now - lc < THRESHOLD_1_DAY →
        calculate_poll_interval now (some lc) base = base)
    ∧ (THRESHOLD_1_DAY ≤ now - lc → now - lc < THRESHOLD_1_WEEK →
        calculate_poll_interval now (some lc) base = 5)
    ∧ (THRESHOLD_1_WEEK ≤ now - lc → now - lc < THRESHOLD_1_MONTH →
        calculate_poll_interval now (some lc) base = 30)
    ∧ (THRESHOLD_1_MONTH ≤ now - lc →
        calculate_poll_interval now (some lc) base = 60)
    ∧ (calculate_poll_interval now (some lc) base = base ∨
       calculate_poll_interval now (some lc) base = 5 ∨
       calculate_poll_interval now (some lc) base = 30 ∨
       calculate_poll_interval now (some lc) base = 60)
    ∧ calculate_poll_interval (lc + THRESHOLD_1_DAY) (some lc) base = 5
    ∧ calculate_poll_interval (lc + THRESHOLD_1_WEEK) (some lc) base = 30
    ∧ calculate_poll_interval (lc + THRESHOLD_1_MONTH) (some lc) base = 60 := by
  refine ⟨?_, ?_, ?_, ?_, ?_, ?_, ?_, ?_, ?_⟩ <;>
    simp only [calculate_poll_interval, THRESHOLD_1_DAY, THRESHOLD_1_WEEK,
      THRESHOLD_1_MONTH, POLL_INTERVAL_1_DAY, POLL_INTERVAL_1_WEEK,
      POLL_INTERVAL_1_MONTH] <;>
    intros <;> split_ifs <;> omega

/-- Witness for C2 at a concrete elapsed time of exactly one day. -/
theorem C2_calculate_poll_interval_cases_witness :
    calculate_poll_interval 86400 (some 0) 1 = 5 :=
  (C2_calculate_poll_interval_cases 86400 0 1).2.2.1 (by decide) (by decide)

/-- C10: for every base interval of at most 5 minutes,
`calculate_poll_interval` is monotone non-decreasing in the elapsed time; and
the precondition is necessary, since a base above 5 (still within the options
flow range of at most 60) produces a decrease across the one-day threshold. -/
theorem C10_poll_interval_monotone :
    (∀ base lc now1 now2 : Int, base ≤ 5 → now1 ≤ now2 →
      calculate_poll_interval now1 (some lc) base
        ≤ calculate_poll_interval now2 (some lc) base)
    ∧ (∃ base lc now1 now2 : Int, 5 < base ∧ base ≤ 60 ∧ now1 ≤ now2 ∧
        calculate_poll_interval now2 (some lc) base
          < calculate_poll_interval now1 (some lc) base) := by
  constructor
  · intro base lc now1 now2 hb h
    simp only [calculate_poll_interval, THRESHOLD_1_DAY, THRESHOLD_1_WEEK,
      THRESHOLD_1_MONTH, POLL_INTERVAL_1_DAY, POLL_INTERVAL_1_WEEK,
      POLL_INTERVAL_1_MONTH]
    norm_num
    split_ifs <;> omega
  · exact ⟨6, 0, 0, 86400, by decide, by decide, by decide, by decide⟩

/-- Witness for C10's monotonicity at base 1 across the one-day threshold. -/
theorem C10_poll_interval_monotone_witness :
    calculate_poll_interval 0 (some 0) 1 ≤ calculate_poll_interval 90000 (some 0) 1 :=
  C10_poll_interval_monotone.1 1 0 0 90000 (by decide) (by decide)

/-- Extending the five git-error categories to the seven that actually occur. -/
lemma seven_of_five {t : List Char}
    (h : t = "auth".data ∨ t = "permission".data ∨ t = "not_found".data
      ∨ t = "network".data ∨ t = "unknown".data) :
    t = "auth".data ∨ t = "permission".data ∨ t = "not_found".data
      ∨ t = "network".data ∨ t = "unknown".data
      ∨ t = "config".data ∨ t = "structure".data := by
  tauto

lemma leadsWith_https_ne_nil (s : List Char)
    (h : leadsWith "https://".data s = true) : s ≠ [] := by
  intro hs; subst hs; exact absurd h (by decide)

lemma leadsWith_file_ne_nil (s : List Char)
    (h : leadsWith "file://".data s = true) : s ≠ [] := by
  intro hs; subst hs; exact absurd h (by decide)

lemma https_false_of_file (s : List Char)
    (h : leadsWith "file://".data s = true) :
    leadsWith "https://".data s = false := by
  cases s with
  | nil => exact absurd h (by decide)
  | cons c cs =>
    have hc : c = 'f' := by
      rw [show "file://".data = 'f' :: "ile://".data from rfl] at h
      simp only [leadsWith, Bool.and_eq_true, beq_iff_eq] at h
      exact h.1.symm
    subst hc
    rw [show "https://".data = 'h' :: "ttps://".data from rfl]
    simp only [leadsWith]
    rw [show (('h' : Char) == 'f') = false from by decide]
    simp

/-- Under a https URL and a determinable slug, `sync_repo_detailed` reduces
to its git part. -/
lemma sync_repo_detailed_https (cfg : SyncConfig) (env : GitEnv)
    (hurl : leadsWith "https://".data cfg.repository = true)
    (hslug : effectiveSlug cfg ≠ []) :
    sync_repo_detailed cfg env = syncGitPart env := by
  have hnn : cfg.repository ≠ [] := leadsWith_https_ne_nil _ hurl
  simp only [sync_repo_detailed, auth_url, hurl]
  rw [if_neg hnn, if_neg (by simp), if_neg hslug]
  cases ht : pyTruthyOpt (some cfg.token) <;> simp [ht]

/-- C3: every `sync_repo_detailed` result carries one of exactly the four
status tags "cloned", "updated", "unchanged", "skipped", and `sync_repo`
returns exactly that status string. -/
theorem C3_sync_repo_status (cfg : SyncConfig) (env : GitEnv) :
    ((sync_repo_detailed cfg env).status = "cloned".data
      ∨ (sync_repo_detailed cfg env).status = "updated".data
      ∨ (sync_repo_detailed cfg env).status = "unchanged".data
      ∨ (sync_repo_detailed cfg env).status = "skipped".data)
    ∧ sync_repo cfg env = (sync_repo_detailed cfg env).status := by
  refine ⟨?_, rfl⟩
  simp only [sync_repo_detailed, syncGitPart, gitPhase]
  repeat' split
  all_goals simp

/-- Witness for C3 at a concrete configuration and git environment. -/
theorem C3_sync_repo_status_witness :
    sync_repo
        { repository := "https://h/x".data, slug := "x".data,
          branch := "main".data, token := [] }
        { stagingExists := true, stagingIsValidRepo := true, headBefore := "a".data,
          updateError := none, headAfterPull := "a".data, cloneError := none,
          cloneHead := "a".data, integration := some .flat, fileSyncError := none }
      = (sync_repo_detailed
        { repository := "https://h/x".data, slug := "x".data,
          branch := "main".data, token := [] }
        { stagingExists := true, stagingIsValidRepo := true, headBefore := "a".data,
          updateError := none, headAfterPull := "a".data, cloneError := none,
          cloneHead := "a".data, integration := some .flat, fileSyncError := none }).status :=
  (C3_sync_repo_status _ _).2

/-- C8: every result of `sync_repo_detailed` satisfies the three coupled
invariants: `has_changes` iff status is "cloned" or "updated"; `error` is
non-None iff status is "skipped"; `commit_sha` is non-None iff status is not
"skipped". -/
theorem C8_sync_result_invariants (cfg : SyncConfig) (env : GitEnv) :
    ((sync_repo_detailed cfg env).has_changes = true ↔
      ((sync_repo_detailed cfg env).status = "cloned".data
        ∨ (sync_repo_detailed cfg env).status = "updated".data))
    ∧ ((sync_repo_detailed cfg env).error ≠ none ↔
      (sync_repo_detailed cfg env).status = "skipped".data)
    ∧ ((sync_repo_detailed cfg env).commit_sha ≠ none ↔
      (sync_repo_detailed cfg env).status ≠ "skipped".data) := by
  simp only [sync_repo_detailed, syncGitPart, gitPhase]
  repeat' split
  all_goals refine ⟨?_, ?_, ?_⟩
  all_goals simp

/-- Witness for C8 at a concrete skipped result. -/
theorem C8_sync_result_invariants_witness :
    (sync_repo_detailed
      { repository := [], slug := "x".data, branch := "main".data, token := [] }
      { stagingExists := true, stagingIsValidRepo := true, headBefore := "a".data,
        updateError := none, headAfterPull := "a".data, cloneError := none,
        cloneHead := "a".data, integration := some .flat, fileSyncError := none }).error
      ≠ none :=
  (C8_sync_result_invariants _ _).2.1.mpr (by decide)

/-- C5 counterexample: an empty repository URL yields a skipped result whose
error_type is "config", which is not one of the five git-error categories. -/
theorem C5_counterexample :
    (sync_repo_detailed
        { repository := [], slug := "x".data, branch := "main".data, token := [] }
        { stagingExists := true, stagingIsValidRepo := true, headBefore := "a".data,
          updateError := none, headAfterPull := "a".data, cloneError := none,
          cloneHead := "a".data, integration := some .flat, fileSyncError := none }).status
      = "skipped".data
    ∧ (sync_repo_detailed
        { repository := [], slug := "x".data, branch := "main".data, token := [] }
        { stagingExists := true, stagingIsValidRepo := true, headBefore := "a".data,
          updateError := none, headAfterPull := "a".data, cloneError := none,
          cloneHead := "a".data, integration := some .flat, fileSyncError := none }).error_type
      = some "config".data
    ∧ ¬("config".data = "auth".data ∨ "config".data = "permission".data
        ∨ "config".data = "not_found".data ∨ "config".data = "network".data
        ∨ "config".data = "unknown".data) := by
  decide

/-- C5 (amended): every skipped result's error_type is one of the seven
categories auth, permission, not_found, network, unknown, config, structure;
the first five are the git-error categories, "config" marks input validation
failures and "structure" a repository without an integration folder. -/
theorem C5_skipped_error_type (cfg : SyncConfig) (env : GitEnv)
    (h : (sync_repo_detailed cfg env).status = "skipped".data) :
    ∃ t, (sync_repo_detailed cfg env).error_type = some t
      ∧ (t = "auth".data ∨ t = "permission".data ∨ t = "not_found".data
        ∨ t = "network".data ∨ t = "unknown".data
        ∨ t = "config".data ∨ t = "structure".data) := by
  revert h
  simp only [sync_repo_detailed, syncGitPart, gitPhase]
  repeat' split
  all_goals
    first
    | (intro h
       refine ⟨_, rfl, ?_⟩
       first
       | decide
       | exact seven_of_five (parse_git_error_fst_mem _))
    | simp

/-- Witness for C5 at the empty-URL skipped result. -/
theorem C5_skipped_error_type_witness :
    ∃ t, (sync_repo_detailed
        { repository := [], slug := "x".data, branch := "main".data, token := [] }
        { stagingExists := true, stagingIsValidRepo := true, headBefore := "a".data,
          updateError := none, headAfterPull := "a".data, cloneError := none,
          cloneHead := "a".data, integration := some .flat, fileSyncError := none }).error_type
      = some t
      ∧ (t = "auth".data ∨ t = "permission".data ∨ t = "not_found".data
        ∨ t = "network".data ∨ t = "unknown".data
        ∨ t = "config".data ∨ t = "structure".data) :=
  C5_skipped_error_type _ _ (by decide)

/-- C1 counterexample: a configuration with an empty repository URL, while
the staging clone exists as a valid git repository with unchanged HEAD,
yields "skipped" rather than the "unchanged" the claim requires for every
configuration. -/
theorem C1_counterexample :
    (sync_repo_detailed
        { repository := [], slug := "x".data, branch := "main".data, token := [] }
        { stagingExists := true, stagingIsValidRepo := true, headBefore := "a".data,
          updateError := none, headAfterPull := "a".data, cloneError := none,
          cloneHead := "a".data, integration := some .flat, fileSyncError := none }).status
      = "skipped".data
    ∧ (sync_repo_detailed
        { repository := [], slug := "x".data, branch := "main".data, token := [] }
        { stagingExists := true, stagingIsValidRepo := true, headBefore := "a".data,
          updateError := none, headAfterPull := "a".data, cloneError := none,
          cloneHead := "a".data, integration := some .flat, fileSyncError := none }).status
      ≠ "unchanged".data := by
  decide

/-- C1 (amended): provided the configuration passes validation (https URL,
determinable slug), the git operations and file sync succeed, an integration
folder is found, and the recorded HEAD SHA is non-empty: when the staging
clone exists as a valid git repository the HEAD before the
fetch/checkout/pull is compared with the HEAD after — equal gives
"unchanged" with has_changes False and that commit, different gives
"updated" with has_changes True and the new HEAD; when no staging clone
exists, or it is not a git repository and is moved aside, a fresh clone
gives "cloned" with has_changes True and the cloned HEAD. -/
theorem C1_sync_head_comparison (cfg : SyncConfig) (env : GitEnv)
    (hurl : leadsWith "https://".data cfg.repository = true)
    (hslug : effectiveSlug cfg ≠ [])
    (hupd : env.updateError = none)
    (hclone : env.cloneError = none)
    (hint : env.integration ≠ none)
    (hfile : env.fileSyncError = none)
    (hhb : env.headBefore ≠ []) :
    (env.stagingExists = true → env.stagingIsValidRepo = true →
      (env.headBefore = env.headAfterPull →
        sync_repo_detailed cfg env =
          { status := "unchanged".data, has_changes := false,
            commit_sha := some env.headAfterPull })
      ∧ (env.headBefore ≠ env.headAfterPull →
        sync_repo_detailed cfg env =
          { status := "updated".data, has_changes := true,
            commit_sha := some env.headAfterPull }))
    ∧ ((env.stagingExists = false ∨ env.stagingIsValidRepo = false) →
      sync_repo_detailed cfg env =
        { status := "cloned".data, has_changes := true,
          commit_sha := some env.cloneHead }) := by
  obtain ⟨loc, hloc⟩ : ∃ l, env.integration = some l := by
    cases hi : env.integration with
    | none => exact absurd hi hint
    | some l => exact ⟨l, rfl⟩
  rw [sync_repo_detailed_https cfg env hurl hslug]
  simp only [syncGitPart, gitPhase, hupd, hclone, hloc, hfile]
  constructor
  · intro hse hsv
    simp only [hse, hsv, if_true]
    constructor
    · intro heq
      have hhb' : env.headAfterPull ≠ [] := heq ▸ hhb
      simp [heq, hhb']
    · intro hne
      simp [hhb, hne]
  · intro hor
    rcases hor with h | h <;> simp [h]

/-- Witness for C1 at a concrete unchanged sync. -/
theorem C1_sync_head_comparison_witness :
    sync_repo_detailed
        { repository := "https://h/x".data, slug := "x".data,
          branch := "main".data, token := [] }
        { stagingExists := true, stagingIsValidRepo := true, headBefore := "a".data,
          updateError := none, headAfterPull := "a".data, cloneError := none,
          cloneHead := "a".data, integration := some .flat, fileSyncError := none }
      = { status := "unchanged".data, has_changes := false,
          commit_sha := some "a".data } :=
  ((C1_sync_head_comparison _ _ (by decide) (by decide) rfl rfl (by decide) rfl
    (by decide)).1 rfl rfl).1 rfl

/-- C9 counterexample: the configuration with repository URL "file://.git"
and no configured slug starts with "file://", yet is skipped with the slug
error, not with "Only https clone URLs are supported". -/
theorem C9_counterexample :
    leadsWith "file://".data "file://.git".data = true
    ∧ (sync_repo_detailed
        { repository := "file://.git".data, slug := [], branch := "main".data,
          token := [] }
        { stagingExists := true, stagingIsValidRepo := true, headBefore := "a".data,
          updateError := none, headAfterPull := "a".data, cloneError := none,
          cloneHead := "a".data, integration := some .flat, fileSyncError := none }).error
      ≠ some "Only https clone URLs are supported".data
    ∧ (sync_repo_detailed
        { repository := "file://.git".data, slug := [], branch := "main".data,
          token := [] }
        { stagingExists := true, stagingIsValidRepo := true, headBefore := "a".data,
          updateError := none, headAfterPull := "a".data, cloneError := none,
          cloneHead := "a".data, integration := some .flat, fileSyncError := none }).error
      = some "Could not determine slug from URL".data := by
  decide

/-- C9 (amended): for every configuration whose repository URL begins with
"file://" and for which a non-empty slug is determined, `sync_repo_detailed`
returns "skipped" with error_type "config" and error text "Only https clone
URLs are supported": the URL-format validation admits file:// URLs, but
`_auth_url` rejects every URL not beginning with "https://". -/
theorem C9_file_url_skipped (cfg : SyncConfig) (env : GitEnv)
    (hfile : leadsWith "file://".data cfg.repository = true)
    (hslug : effectiveSlug cfg ≠ []) :
    sync_repo_detailed cfg env =
      { status := "skipped".data,
        error := some "Only https clone URLs are supported".data,
        error_type := some "config".data } := by
  have hnn : cfg.repository ≠ [] := leadsWith_file_ne_nil _ hfile
  have hnh : leadsWith "https://".data cfg.repository = false :=
    https_false_of_file _ hfile
  simp only [sync_repo_detailed, auth_url, hnh, hfile]
  rw [if_neg hnn, if_neg (by simp), if_neg hslug]
  simp

/-- Witness for C9 at a concrete file:// configuration. -/
theorem C9_file_url_skipped_witness :
    sync_repo_detailed
        { repository := "file://h/x".data, slug := "x".data,
          branch := "main".data, token := [] }
        { stagingExists := true, stagingIsValidRepo := true, headBefore := "a".data,
          updateError := none, headAfterPull := "a".data, cloneError := none,
          cloneHead := "a".data, integration := some .flat, fileSyncError := none }
      = { status := "skipped".data,
          error := some "Only https clone URLs are supported".data,
          error_type := some "config".data } :=
  C9_file_url_skipped _ _ (by decide) (by decide)

lemma leadsWith_append_self (p rest : List Char) :
    leadsWith p (p ++ rest) = true := by
  induction p with
  | nil => rfl
  | cons c cs ih => simp [leadsWith, ih]

lemma replaceFuel_no_occ (pat rep : List Char)
    (s : List Char) (hno : containsSub pat s = false) :
    ∀ f : Nat, replaceFuel pat rep f s = s := by
  induction s with
  | nil => intro f; cases f <;> rfl
  | cons c cs ih =>
    intro f
    simp only [containsSub, Bool.or_eq_false_iff] at hno
    cases f with
    | zero => rfl
    | succ g =>
      simp only [replaceFuel, hno.1, if_false, Bool.false_eq_true]
      rw [ih hno.2 g]

lemma replaceFuel_head (p : Char) (ps rep rest : List Char)
    (hno : containsSub (p :: ps) rest = false) (f : Nat) :
    replaceFuel (p :: ps) rep (f + 1) ((p :: ps) ++ rest) = rep ++ rest := by
  show replaceFuel (p :: ps) rep (f + 1) (p :: (ps ++ rest)) = rep ++ rest
  simp only [replaceFuel]
  rw [show (p :: (ps ++ rest)) = (p :: ps) ++ rest from rfl,
    if_pos (leadsWith_append_self (p :: ps) rest)]
  rw [show ((p :: ps) ++ rest).drop (p :: ps).length = rest from List.drop_left _ _]
  rw [replaceFuel_no_occ _ _ _ hno f]

lemma pyReplace_single_head (p : Char) (ps rep rest : List Char)
    (hno : containsSub (p :: ps) rest = false) :
    pyReplace (p :: ps) rep ((p :: ps) ++ rest) = rep ++ rest := by
  simp only [pyReplace]
  have hl : ((p :: ps) ++ rest).length = (ps.length + rest.length) + 1 := by
    simp [List.length_append]
  rw [hl]
  exact replaceFuel_head p ps rep rest hno (ps.length + rest.length)

/-- C6 counterexample: for the URL "https://a/https://b" (which begins with
"https://") and token "t", `_auth_url` replaces both occurrences of
"https://", so the result is not the claim's prefix-only replacement
"https://t@a/https://b". -/
theorem C6_counterexample :
    ("https://a/https://b".data : List Char)
      = "https://".data ++ "a/https://b".data
    ∧ auth_url "https://a/https://b".data (some "t".data)
      = Except.ok "https://t@a/https://t@b".data
    ∧ auth_url "https://a/https://b".data (some "t".data)
      ≠ Except.ok "https://t@a/https://b".data := by
  refine ⟨rfl, rfl, ?_⟩
  intro h
  rw [show auth_url "https://a/https://b".data (some "t".data)
      = Except.ok "https://t@a/https://t@b".data from rfl] at h
  injection h with h2
  exact absurd h2 (by decide)

/-- C6 (amended): for every URL beginning with "https://" in which
"https://" does not occur again after that prefix, and every non-empty token
t, the authenticated clone URL is the input with its "https://" prefix
replaced by "https://" + t + "@" (in general the code replaces every
occurrence of "https://"); for an empty or None token any https URL is
returned unchanged; and every URL not beginning with "https://" raises
ValueError. -/
theorem C6_auth_url_replacement (url rest token : List Char)
    (hu : url = "https://".data ++ rest) :
    (token ≠ [] → containsSub "https://".data rest = false →
      auth_url url (some token) =
        Except.ok (("https://".data ++ token ++ ['@']) ++ rest))
    ∧ auth_url url none = Except.ok url
    ∧ auth_url url (some []) = Except.ok url
    ∧ (∀ u2 : List Char, leadsWith "https://".data u2 = false →
        ∀ t2 : Option (List Char),
          auth_url u2 t2 = Except.error "Only https clone URLs are supported".data) := by
  subst hu
  have hlead := leadsWith_append_self "https://".data rest
  refine ⟨?_, ?_, ?_, ?_⟩
  · intro htok hno
    simp only [auth_url, hlead]
    rw [if_neg (by simp)]
    rw [if_pos (by simp [pyTruthyOpt, htok])]
    exact congrArg Except.ok
      (pyReplace_single_head 'h' "ttps://".data
        ("https://".data ++ token ++ ['@']) rest hno)
  · simp only [auth_url, hlead]
    rw [if_neg (by simp)]
    rfl
  · simp only [auth_url, hlead]
    rw [if_neg (by simp)]
    rfl
  · intro u2 h2 t2
    simp [auth_url, h2]

/-- Witness for C6 at a concrete URL and token. -/
theorem C6_auth_url_replacement_witness :
    auth_url "https://x.com/r".data (some "tok".data)
      = Except.ok (("https://".data ++ "tok".data ++ ['@']) ++ "x.com/r".data) :=
  (C6_auth_url_replacement _ "x.com/r".data "tok".data rfl).1
    (by decide) (by decide)

/-! ### Helper lemmas for parse_github_url (C7) -/

lemma dropWhile_all_append (p : Char → Bool) (l1 l2 : List Char)
    (h : ∀ c ∈ l1, p c = true) :
    (l1 ++ l2).dropWhile p = l2.dropWhile p := by
  induction l1 with
  | nil => rfl
  | cons c cs ih =>
    rw [List.cons_append, List.dropWhile_cons, if_pos (h c (List.mem_cons_self c cs))]
    exact ih (fun d hd => h d (List.mem_cons_of_mem c hd))

lemma dropWhile_cons_of_neg (p : Char → Bool) (c : Char) (cs : List Char)
    (h : p c = false) : (c :: cs).dropWhile p = c :: cs := by
  simp [List.dropWhile_cons, h]

lemma pyStrip_sandwich (ws1 ws2 mid : List Char)
    (h1 : ∀ c ∈ ws1, isPySpace c = true) (h2 : ∀ c ∈ ws2, isPySpace c = true)
    (hhead : ∃ c m, mid = c :: m ∧ isPySpace c = false)
    (htail : ∃ c m, mid.reverse = c :: m ∧ isPySpace c = false) :
    pyStrip (ws1 ++ mid ++ ws2) = mid := by
  obtain ⟨c0, m, hm, hc0⟩ := hhead
  obtain ⟨cN, mR, hr, hcN⟩ := htail
  subst hm
  unfold pyStrip
  rw [List.append_assoc]
  rw [dropWhile_all_append isPySpace ws1 ((c0 :: m) ++ ws2) h1]
  rw [show (c0 :: m) ++ ws2 = c0 :: (m ++ ws2) from rfl]
  rw [dropWhile_cons_of_neg isPySpace c0 (m ++ ws2) hc0]
  rw [show c0 :: (m ++ ws2) = (c0 :: m) ++ ws2 from rfl]
  rw [List.reverse_append]
  rw [dropWhile_all_append isPySpace ws2.reverse (c0 :: m).reverse
    (fun c hc => h2 c (List.mem_reverse.mp hc))]
  rw [hr, dropWhile_cons_of_neg isPySpace cN mR hcN, ← hr, List.reverse_reverse]

lemma sandwich_ne_nil (ws1 ws2 m : List Char) (c : Char) (mid : List Char)
    (hshape : mid = c :: m) : ws1 ++ mid ++ ws2 ≠ [] := by
  subst hshape; simp

lemma pySplitSlash_no_slash (l : List Char) (h : '/' ∉ l) :
    pySplitSlash l = [l] := by
  induction l with
  | nil => rfl
  | cons c cs ih =>
    have hc : (c == '/') = false := by
      simp only [beq_eq_false_iff_ne, ne_eq]
      intro he; exact h (he ▸ List.mem_cons_self c cs)
    simp only [pySplitSlash]
    rw [if_neg (by simp [hc])]
    rw [ih (fun hm => h (List.mem_cons_of_mem c hm))]

lemma pySplitSlash_append (a rest : List Char) (ha : '/' ∉ a) :
    pySplitSlash (a ++ '/' :: rest) = a :: pySplitSlash rest := by
  induction a with
  | nil =>
    simp only [List.nil_append, pySplitSlash]
    rw [if_pos (by simp)]
  | cons c cs ih =>
    have hc : (c == '/') = false := by
      simp only [beq_eq_false_iff_ne, ne_eq]
      intro he; exact ha (he ▸ List.mem_cons_self c cs)
    simp only [List.cons_append, pySplitSlash, List.append_eq]
    rw [if_neg (by simp [hc])]
    rw [ih (fun hm => ha (List.mem_cons_of_mem c hm))]

lemma split_owner_name (owner name : List Char) (ho : '/' ∉ owner)
    (hn : '/' ∉ name) :
    pySplitSlash (owner ++ '/' :: name) = [owner, name] := by
  rw [pySplitSlash_append owner name ho, pySplitSlash_no_slash name hn]

lemma leadsWith_stop (p : List Char) (hpn : '/' ∉ p) :
    ∀ a tail, leadsWith p a = false → leadsWith p (a ++ '/' :: tail) = false := by
  induction p with
  | nil => intro a tail hp; simp [leadsWith] at hp
  | cons q qs ih =>
    intro a tail hp
    cases a with
    | nil =>
      have hq : (q == '/') = false := by
        simp only [beq_eq_false_iff_ne, ne_eq]
        intro he; exact hpn (he ▸ List.mem_cons_self q qs)
      simp [leadsWith, hq]
    | cons c cs =>
      simp only [leadsWith] at hp
      rw [List.cons_append]
      simp only [leadsWith]
      cases hqc : (q == c) with
      | false => simp [hqc]
      | true =>
        simp only [hqc, Bool.true_and] at hp
        simp only [hqc, Bool.true_and]
        exact ih (fun hm => hpn (List.mem_cons_of_mem q hm)) cs tail hp

lemma endsWithL_append_self (suf l : List Char) :
    endsWithL suf (l ++ suf) = true := by
  unfold endsWithL
  rw [List.reverse_append]
  exact leadsWith_append_self _ _

lemma endsWithL_sep (owner name : List Char)
    (hg : endsWithL ".git".data name = false) :
    endsWithL ".git".data (owner ++ '/' :: name) = false := by
  unfold endsWithL at hg ⊢
  have h1 : (owner ++ '/' :: name).reverse = name.reverse ++ '/' :: owner.reverse := by
    simp
  rw [h1]
  exact leadsWith_stop _ (by decide) _ _ hg

lemma pyRstripSlash_of_rev_cons (l : List Char) (c : Char) (m : List Char)
    (hrev : l.reverse = c :: m) (hc : (c == '/') = false) :
    pyRstripSlash l = l := by
  unfold pyRstripSlash
  rw [hrev, dropWhile_cons_of_neg (fun x => x == '/') c m hc, ← hrev,
    List.reverse_reverse]

lemma pyRstripSlash_append_slash (l : List Char) :
    pyRstripSlash (l ++ ['/']) = pyRstripSlash l := by
  unfold pyRstripSlash
  rw [List.reverse_append]
  rw [show ((['/'] : List Char).reverse ++ l.reverse) = '/' :: l.reverse from rfl]
  rw [List.dropWhile_cons]
  simp

lemma dropTail_append_len (l m : List Char) :
    dropTail m.length (l ++ m) = l := by
  unfold dropTail
  rw [List.length_append]
  rw [show l.length + m.length - m.length = l.length from by omega]
  exact List.take_left _ _

lemma rev_cons_of_ne_nil (l : List Char) (hne : l ≠ []) :
    ∃ c m, l.reverse = c :: m := by
  cases hrev : l.reverse with
  | nil =>
    exfalso
    apply hne
    have := congrArg List.reverse hrev
    simpa using this
  | cons c m => exact ⟨c, m, rfl⟩

lemma getLast?_of_rev (l : List Char) (c : Char) (m : List Char)
    (h : l.reverse = c :: m) : l.getLast? = some c := by
  rw [← List.head?_reverse, h]; rfl

lemma rstrip_owner_slash_name (owner name : List Char) (hn : '/' ∉ name)
    (hne : name ≠ []) :
    pyRstripSlash (owner ++ '/' :: name) = owner ++ '/' :: name := by
  obtain ⟨cN, mR, hrev⟩ := rev_cons_of_ne_nil name hne
  have hcslash : (cN == '/') = false := by
    have hmem : cN ∈ name := by
      rw [← List.mem_reverse, hrev]; exact List.mem_cons_self _ _
    simp only [beq_eq_false_iff_ne, ne_eq]
    intro he; exact hn (he ▸ hmem)
  have hrev2 : (owner ++ '/' :: name).reverse = cN :: (mR ++ '/' :: owner.reverse) := by
    have h0 : (owner ++ '/' :: name).reverse = name.reverse ++ '/' :: owner.reverse := by
      simp
    rw [h0, hrev, List.cons_append]
  exact pyRstripSlash_of_rev_cons _ _ _ hrev2 hcslash

lemma parseStripped_plain (owner name : List Char)
    (ho : '/' ∉ owner) (hn : '/' ∉ name) (hne : name ≠ [])
    (hg : endsWithL ".git".data name = false) :
    parseStrippedUrl ("https://github.com/".data ++ (owner ++ '/' :: name))
      = some (owner, name) := by
  simp only [parseStrippedUrl]
  rw [if_pos (leadsWith_append_self "https://github.com/".data (owner ++ '/' :: name))]
  rw [List.drop_left]
  rw [rstrip_owner_slash_name owner name hn hne]
  rw [if_neg (by simp [endsWithL_sep owner name hg])]
  rw [split_owner_name owner name ho hn]

lemma parseStripped_git (owner name : List Char)
    (ho : '/' ∉ owner) (hn : '/' ∉ name) :
    parseStrippedUrl
        ("https://github.com/".data ++ ((owner ++ '/' :: name) ++ ".git".data))
      = some (owner, name) := by
  have hrevg : ((owner ++ '/' :: name) ++ ".git".data).reverse
      = 't' :: ("ig.".data ++ (owner ++ '/' :: name).reverse) := by
    rw [List.reverse_append]; rfl
  simp only [parseStrippedUrl]
  rw [if_pos (leadsWith_append_self "https://github.com/".data
    ((owner ++ '/' :: name) ++ ".git".data))]
  rw [List.drop_left]
  rw [pyRstripSlash_of_rev_cons _ _ _ hrevg (by decide)]
  rw [if_pos (endsWithL_append_self ".git".data (owner ++ '/' :: name))]
  rw [show (4 : Nat) = (".git".data : List Char).length from rfl]
  rw [dropTail_append_len]
  rw [split_owner_name owner name ho hn]

lemma parseStripped_slash (owner name : List Char)
    (ho : '/' ∉ owner) (hn : '/' ∉ name) (hne : name ≠ [])
    (hg : endsWithL ".git".data name = false) :
    parseStrippedUrl
        ("https://github.com/".data ++ ((owner ++ '/' :: name) ++ ['/']))
      = some (owner, name) := by
  simp only [parseStrippedUrl]
  rw [if_pos (leadsWith_append_self "https://github.com/".data
    ((owner ++ '/' :: name) ++ ['/']))]
  rw [List.drop_left]
  rw [pyRstripSlash_append_slash]
  rw [rstrip_owner_slash_name owner name hn hne]
  rw [if_neg (by simp [endsWithL_sep owner name hg])]
  rw [split_owner_name owner name ho hn]

lemma parseStripped_ssh (owner name : List Char)
    (ho : '/' ∉ owner) (hn : '/' ∉ name) :
    parseStrippedUrl
        ("git@github.com:".data ++ ((owner ++ '/' :: name) ++ ".git".data))
      = some (owner, name) := by
  have hns : leadsWith "https://github.com/".data
      ("git@github.com:".data ++ ((owner ++ '/' :: name) ++ ".git".data)) = false := by
    rw [show "git@github.com:".data ++ ((owner ++ '/' :: name) ++ ".git".data)
        = 'g' :: ("it@github.com:".data ++ ((owner ++ '/' :: name) ++ ".git".data))
      from rfl]
    rw [show ("https://github.com/".data : List Char)
        = 'h' :: "ttps://github.com/".data from rfl]
    simp only [leadsWith]
    rw [show (('h' : Char) == 'g') = false from by decide]
    simp
  simp only [parseStrippedUrl]
  rw [if_neg (by rw [hns]; exact Bool.false_ne_true)]
  simp only [githubSshBranch]
  rw [if_pos (leadsWith_append_self "git@github.com:".data
    ((owner ++ '/' :: name) ++ ".git".data))]
  rw [List.drop_left]
  rw [if_pos (endsWithL_append_self ".git".data (owner ++ '/' :: name))]
  rw [show (4 : Nat) = (".git".data : List Char).length from rfl]
  rw [dropTail_append_len]
  rw [split_owner_name owner name ho hn]

/-- C7 counterexample: for owner "o" and name "" (no slash, not ending in
".git") the plain https form parses to None, not to ("o", ""); and for name
"x " (trailing whitespace) the plain form parses to ("o", "x"), not
("o", "x "). -/
theorem C7_counterexample :
    parse_github_url "https://github.com/o/".data = none
    ∧ parse_github_url "https://github.com/o/x ".data = some ("o".data, "x".data)
    ∧ (some (("o".data : List Char), ("x".data : List Char))
        ≠ some (("o".data : List Char), ("x ".data : List Char))) := by
  refine ⟨by decide, by decide, by decide⟩

/-- C7 (amended): for every owner containing no slash and every non-empty
name containing no slash, not ending in ".git", and whose last character is
not whitespace, each of the four URL forms — plain https, https with ".git",
https with trailing slash, and SSH — possibly with surrounding whitespace,
parses to exactly (owner, name); and every string whose stripped form starts
with neither "https://github.com/" nor "git@github.com:" (including the
empty string) parses to None. -/
theorem C7_parse_github_url_roundtrip (owner name ws1 ws2 : List Char)
    (hws1 : ∀ c ∈ ws1, isPySpace c = true)
    (hws2 : ∀ c ∈ ws2, isPySpace c = true)
    (ho : '/' ∉ owner) (hn : '/' ∉ name) (hne : name ≠ [])
    (hgit : endsWithL ".git".data name = false)
    (hlast : name.getLast?.all (fun c => !isPySpace c) = true) :
    parse_github_url
        (ws1 ++ ("https://github.com/".data ++ (owner ++ '/' :: name)) ++ ws2)
      = some (owner, name)
    ∧ parse_github_url
        (ws1 ++ ("https://github.com/".data ++ ((owner ++ '/' :: name) ++ ".git".data)) ++ ws2)
      = some (owner, name)
    ∧ parse_github_url
        (ws1 ++ ("https://github.com/".data ++ ((owner ++ '/' :: name) ++ ['/'])) ++ ws2)
      = some (owner, name)
    ∧ parse_github_url
        (ws1 ++ ("git@github.com:".data ++ ((owner ++ '/' :: name) ++ ".git".data)) ++ ws2)
      = some (owner, name)
    ∧ (∀ s : List Char,
        leadsWith "https://github.com/".data (pyStrip s) = false →
        leadsWith "git@github.com:".data (pyStrip s) = false →
        parse_github_url s = none) := by
  obtain ⟨cN, mR, hrev⟩ := rev_cons_of_ne_nil name hne
  have hlastsp : isPySpace cN = false := by
    have h2 : (!isPySpace cN) = true := by
      rw [getLast?_of_rev name cN mR hrev] at hlast
      exact hlast
    cases hb : isPySpace cN with
    | false => rfl
    | true => rw [hb] at h2; exact absurd h2 (by decide)
  have hrevONS : (owner ++ '/' :: name).reverse
      = cN :: (mR ++ '/' :: owner.reverse) := by
    have h0 : (owner ++ '/' :: name).reverse = name.reverse ++ '/' :: owner.reverse := by
      simp
    rw [h0, hrev, List.cons_append]
  have hstrip1 : pyStrip
      (ws1 ++ ("https://github.com/".data ++ (owner ++ '/' :: name)) ++ ws2)
      = "https://github.com/".data ++ (owner ++ '/' :: name) :=
    pyStrip_sandwich ws1 ws2 _ hws1 hws2
      ⟨'h', "ttps://github.com/".data ++ (owner ++ '/' :: name), rfl, by decide⟩
      ⟨cN, (mR ++ '/' :: owner.reverse) ++ "https://github.com/".data.reverse, by
        rw [List.reverse_append, hrevONS, List.cons_append], hlastsp⟩
  have hstrip2 : pyStrip
      (ws1 ++ ("https://github.com/".data ++ ((owner ++ '/' :: name) ++ ".git".data)) ++ ws2)
      = "https://github.com/".data ++ ((owner ++ '/' :: name) ++ ".git".data) :=
    pyStrip_sandwich ws1 ws2 _ hws1 hws2
      ⟨'h', "ttps://github.com/".data ++ ((owner ++ '/' :: name) ++ ".git".data),
        rfl, by decide⟩
      ⟨'t', ("ig.".data ++ ((owner ++ '/' :: name).reverse ++ "https://github.com/".data.reverse)), by
        rw [List.reverse_append, List.reverse_append]
        rw [show ((".git".data : List Char).reverse) = 't' :: "ig.".data from rfl]
        rw [List.cons_append, List.cons_append, List.append_assoc], by decide⟩
  have hstrip3 : pyStrip
      (ws1 ++ ("https://github.com/".data ++ ((owner ++ '/' :: name) ++ ['/'])) ++ ws2)
      = "https://github.com/".data ++ ((owner ++ '/' :: name) ++ ['/']) :=
    pyStrip_sandwich ws1 ws2 _ hws1 hws2
      ⟨'h', "ttps://github.com/".data ++ ((owner ++ '/' :: name) ++ ['/']),
        rfl, by decide⟩
      ⟨'/', ((owner ++ '/' :: name).reverse ++ "https://github.com/".data.reverse), by
        rw [List.reverse_append, List.reverse_append]
        rw [show ((['/'] : List Char).reverse) = ['/'] from rfl]
        rw [List.singleton_append, List.cons_append], by decide⟩
  have hstrip4 : pyStrip
      (ws1 ++ ("git@github.com:".data ++ ((owner ++ '/' :: name) ++ ".git".data)) ++ ws2)
      = "git@github.com:".data ++ ((owner ++ '/' :: name) ++ ".git".data) :=
    pyStrip_sandwich ws1 ws2 _ hws1 hws2
      ⟨'g', "it@github.com:".data ++ ((owner ++ '/' :: name) ++ ".git".data),
        rfl, by decide⟩
      ⟨'t', ("ig.".data ++ ((owner ++ '/' :: name).reverse ++ "git@github.com:".data.reverse)), by
        rw [List.reverse_append, List.reverse_append]
        rw [show ((".git".data : List Char).reverse) = 't' :: "ig.".data from rfl]
        rw [List.cons_append, List.cons_append, List.append_assoc], by decide⟩
  refine ⟨?_, ?_, ?_, ?_, ?_⟩
  · simp only [parse_github_url]
    rw [if_neg (sandwich_ne_nil ws1 ws2
      ("ttps://github.com/".data ++ (owner ++ '/' :: name)) 'h'
      ("https://github.com/".data ++ (owner ++ '/' :: name)) rfl)]
    rw [hstrip1]
    exact parseStripped_plain owner name ho hn hne hgit
  · simp only [parse_github_url]
    rw [if_neg (sandwich_ne_nil ws1 ws2
      ("ttps://github.com/".data ++ ((owner ++ '/' :: name) ++ ".git".data)) 'h'
      ("https://github.com/".data ++ ((owner ++ '/' :: name) ++ ".git".data)) rfl)]
    rw [hstrip2]
    exact parseStripped_git owner name ho hn
  · simp only [parse_github_url]
    rw [if_neg (sandwich_ne_nil ws1 ws2
      ("ttps://github.com/".data ++ ((owner ++ '/' :: name) ++ ['/'])) 'h'
      ("https://github.com/".data ++ ((owner ++ '/' :: name) ++ ['/'])) rfl)]
    rw [hstrip3]
    exact parseStripped_slash owner name ho hn hne hgit
  · simp only [parse_github_url]
    rw [if_neg (sandwich_ne_nil ws1 ws2
      ("it@github.com:".data ++ ((owner ++ '/' :: name) ++ ".git".data)) 'g'
      ("git@github.com:".data ++ ((owner ++ '/' :: name) ++ ".git".data)) rfl)]
    rw [hstrip4]
    exact parseStripped_ssh owner name ho hn
  · intro s hs1 hs2
    simp only [parse_github_url]
    split_ifs with hs
    · rfl
    · simp [parseStrippedUrl, githubSshBranch, hs1, hs2]

/-- Witness for C7 at owner "octo", name "repo" with surrounding spaces. -/
theorem C7_parse_github_url_roundtrip_witness :
    parse_github_url
        (" ".data ++ ("https://github.com/".data ++ ("octo".data ++ '/' :: "repo".data)) ++ " ".data)
      = some ("octo".data, "repo".data) :=
  (C7_parse_github_url_roundtrip "octo".data "repo".data " ".data " ".data
    (by decide) (by decide) (by decide) (by decide) (by decide) (by decide)
    (by decide)).1

example : calculate_poll_interval 86400 (some 0) 1 = 5 := by decide
example : calculate_poll_interval 86399 (some 0) 1 = 1 := by decide
example : calculate_poll_interval 2592000 (some 0) 1 = 60 := by decide
example : pySplitSlash "a//b".data = ["a".data, "".data, "b".data] := by decide
example : pyReplace ".git".data [] "file://.git".data = "file://".data := by decide
example : pyStrip "  ab ".data = "ab".data := by decide
example : slug_from_url "file://.git".data = [] := by decide
example : auth_url "https://a/https://b".data (some "t".data)
    = Except.ok "https://t@a/https://t@b".data := rfl
example : parse_github_url "https://github.com/o/".data = none := by decide
example : parse_github_url "https://github.com/o/x ".data
    = some ("o".data, "x".data) := by decide
example : parse_github_url "  https://github.com/o/x.git ".data
    = some ("o".data, "x".data) := by decide
example : parse_github_url "git@github.com:o/x.git".data
    = some ("o".data, "x".data) := by decide
example : parse_github_url "https://github.com/o/x/".data
    = some ("o".data, "x".data) := by decide
example : parse_github_url "https://github.com//x".data
    = some ([], "x".data) := by decide
example : (parse_git_error "403 not found".data).1 = "permission".data := by decide
example : (sync_repo_detailed
    { repository := [], slug := "x".data, branch := "main".data, token := [] }
    { stagingExists := true, stagingIsValidRepo := true, headBefore := "a".data,
      updateError := none, headAfterPull := "a".data, cloneError := none,
      cloneHead := "a".data, integration := some .flat, fileSyncError := none }).status
    = "skipped".data := by decide
example : (sync_repo_detailed
    { repository := "file://.git".data, slug := [], branch := "main".data, token := [] }
    { stagingExists := true, stagingIsValidRepo := true, headBefore := "a".data,
      updateError := none, headAfterPull := "a".data, cloneError := none,
      cloneHead := "a".data, integration := some .flat, fileSyncError := none }).error
    = some "Could not determine slug from URL".data := by decide
example : sync_repo_detailed
    { repository := "file://h/x".data, slug := "x".data, branch := "main".data, token := [] }
    { stagingExists := true, stagingIsValidRepo := true, headBefore := "a".data,
      updateError := none, headAfterPull := "a".data, cloneError := none,
      cloneHead := "a".data, integration := some .flat, fileSyncError := none }
    = { status := "skipped".data, error := some "Only https clone URLs are supported".data,
        error_type := some "config".data } := by decide
example : sync_repo_detailed
    { repository := "https://h/x".data, slug := "x".data, branch := "main".data, token := [] }
    { stagingExists := true, stagingIsValidRepo := true, headBefore := "a".data,
      updateError := none, headAfterPull := "a".data, cloneError := none,
      cloneHead := "a".data, integration := some .flat, fileSyncError := none }
    = { status := "unchanged".data, has_changes := false, commit_sha := some "a".data } := by decide
example : (sync_repo_detailed
    { repository := "https://h/x".data, slug := "x".data, branch := "main".data, token := [] }
    { stagingExists := true, stagingIsValidRepo := true, headBefore := "a".data,
      updateError := none, headAfterPull := "b".data, cloneError := none,
      cloneHead := "a".data, integration := some .flat, fileSyncError := none }).status
    = "updated".data := by decide
example : (sync_repo_detailed
    { repository := "https://h/x".data, slug := "x".data, branch := "main".data, token := [] }
    { stagingExists := false, stagingIsValidRepo := true, headBefore := "a".data,
      updateError := none, headAfterPull := "b".data, cloneError := none,
      cloneHead := "c".data, integration := some .flat, fileSyncError := none })
    = { status := "cloned".data, has_changes := true, commit_sha := some "c".data } := by decide
